import Mathlib

/-!
Shallow embedding of `tradingagents/graph/propagation.py`: the `Propagator`
class (state seeding via `create_initial_state` and graph invocation
arguments via `get_graph_args`), the state record it returns, and the debate
sub-state accumulators, together with theorems settling the specification
claims about them.
-/

namespace TradingAgents

/-- A dynamically typed Python value, covering the cases the embedded code
inspects: `None`, booleans, integers and strings. -/
inductive PyVal where
  | vnone : PyVal
  | vbool (b : Bool) : PyVal
  | vint (n : Int) : PyVal
  | vstr (s : String) : PyVal
deriving DecidableEq, Repr

/-- Python truthiness (`if x:`) for the embedded value universe: `None` is
falsy, a boolean is itself, a number is truthy iff nonzero, a string iff
nonempty. -/
def PyVal.truthy : PyVal → Bool
  | .vnone => false
  | .vbool b => b
  | .vint n => n != 0
  | .vstr s => s != ""

/-- Python `str(x)` for the embedded value universe, as used by the f-string
interpolation and the `str(trade_date)` coercion in the source. -/
def PyVal.pyStr : PyVal → String
  | .vnone => "None"
  | .vbool b => if b then "True" else "False"
  | .vint n => toString n
  | .vstr s => s

/-- The `holding_info` sub-dictionary read by `create_initial_state`: the two
keys the code accesses with `.get`, each `none` when the key is absent. -/
structure HoldingInfo where
  shares : Option PyVal
  cost_price : Option PyVal
deriving DecidableEq, Repr

/-- Python truthiness of the `holding_info` dictionary: a dict is truthy iff
it is nonempty, i.e. at least one of its keys is present. -/
def HoldingInfo.truthy (h : HoldingInfo) : Bool :=
  h.shares.isSome || h.cost_price.isSome

/-- The optional `config` dictionary passed to `create_initial_state`, with
the one key the code reads (`holding_info`). -/
structure RunConfig where
  holding_info : Option HoldingInfo
deriving DecidableEq, Repr

/-- A chat message; the source only ever constructs `HumanMessage(content=...)`. -/
inductive PyMessage where
  | human (content : String) : PyMessage
deriving DecidableEq, Repr

/-- The `content` attribute of a message. -/
def PyMessage.content : PyMessage → String
  | .human c => c

/-- The `InvestDebateState` dictionary as constructed by
`create_initial_state`: running history, latest response, and turn count. -/
structure InvestDebateState where
  history : String
  current_response : String
  count : Nat
deriving DecidableEq, Repr

/-- The `RiskDebateState` dictionary as constructed by
`create_initial_state`: running history, one latest-response slot per risk
role, and turn count. -/
structure RiskDebateState where
  history : String
  current_risky_response : String
  current_safe_response : String
  current_neutral_response : String
  count : Nat
deriving DecidableEq, Repr

/-- The state dictionary returned by `Propagator.create_initial_state`, with
one field per key of the returned Python dict. -/
structure AgentState where
  messages : List PyMessage
  company_of_interest : String
  trade_date : String
  holding_info : Option HoldingInfo
  investment_debate_state : InvestDebateState
  risk_debate_state : RiskDebateState
  market_report : String
  fundamentals_report : String
  sentiment_report : String
  news_report : String
deriving DecidableEq, Repr

/-- The seed message of a state: the content of its first (and in the code,
only) message. -/
def AgentState.seedMessage (st : AgentState) : String :=
  (st.messages.headD (.human "")).content

/-- The `Propagator` class: its only instance attribute is
`max_recur_limit`, set in `__init__`. -/
structure Propagator where
  max_recur_limit : Int
deriving DecidableEq, Repr

/-- A `Propagator` built with the default `max_recur_limit=100` argument of
`__init__`. -/
def Propagator.mkDefault : Propagator :=
  { max_recur_limit := 100 }

/-- The base analysis request template of `create_initial_state`:
`f"请对股票 {company_name} 进行全面分析，交易日期为 {trade_date}。"`. -/
def baseAnalysisRequest (company_name : String) (trade_date : PyVal) : String :=
  "请对股票 " ++ company_name ++ " 进行全面分析，交易日期为 " ++ trade_date.pyStr ++ "。"

/-- The holding-information clause appended to the analysis request when both
`shares` and `cost_price` are truthy. -/
def holdingClause (shares cost_price : PyVal) : String :=
  "\n\n📌 用户持仓信息：用户当前持有该股票 " ++ shares.pyStr ++ " 股，" ++
    "持仓成本价为 " ++ cost_price.pyStr ++ " 元/股。" ++
    "请在分析中特别考虑用户的持仓状况，提供针对性的操作建议" ++
    "（如继续持有、加仓、减仓、止盈、止损等）。"

/-- The `holding_info` local of `create_initial_state`: `None` unless
`config` is supplied and `config.get("holding_info")` is truthy, in which
case it is `config["holding_info"]` itself (partial or not). -/
def effectiveHoldingInfo (config : Option RunConfig) : Option HoldingInfo :=
  match config with
  | some c =>
    match c.holding_info with
    | some h => if h.truthy then some h else none
    | none => none
  | none => none

/-- The `analysis_request` local of `create_initial_state`: the base template
plus, when holding info is present with truthy `shares` and `cost_price`, the
holding clause. -/
def analysisRequest (company_name : String) (trade_date : PyVal)
    (config : Option RunConfig) : String :=
  let base := baseAnalysisRequest company_name trade_date
  match effectiveHoldingInfo config with
  | some h =>
    let shares := h.shares.getD .vnone
    let cost_price := h.cost_price.getD .vnone
    if shares.truthy && cost_price.truthy then
      base ++ holdingClause shares cost_price
    else base
  | none => base

/-- `Propagator.create_initial_state`, translated from the source: builds the
analysis request, resolves the holding information, and returns the state
dictionary with empty reports and zeroed debate sub-states. The `trade_date`
argument is kept dynamically typed because the code stores `str(trade_date)`. -/
def Propagator.create_initial_state (_p : Propagator) (company_name : String)
    (trade_date : PyVal) (config : Option RunConfig) : AgentState :=
  { messages := [.human (analysisRequest company_name trade_date config)]
    company_of_interest := company_name
    trade_date := trade_date.pyStr
    holding_info := effectiveHoldingInfo config
    investment_debate_state := { history := "", current_response := "", count := 0 }
    risk_debate_state :=
      { history := ""
        current_risky_response := ""
        current_safe_response := ""
        current_neutral_response := ""
        count := 0 }
    market_report := ""
    fundamentals_report := ""
    sentiment_report := ""
    news_report := "" }

/-- The nested `config` dictionary of the graph arguments, holding the
`recursion_limit` key. -/
structure GraphInvokeConfig where
  recursion_limit : Int
deriving DecidableEq, Repr

/-- The dictionary returned by `Propagator.get_graph_args`. -/
structure GraphArgs where
  stream_mode : String
  config : GraphInvokeConfig
deriving DecidableEq, Repr

/-- `Propagator.get_graph_args`, translated from the source; the Python
parameter `use_progress_callback` defaults to `False`. -/
def Propagator.get_graph_args (p : Propagator) (use_progress_callback : Bool) : GraphArgs :=
  { stream_mode := if use_progress_callback then "updates" else "values"
    config := { recursion_limit := p.max_recur_limit } }

/-- The two sides of the investment debate. -/
inductive InvestSide where
  | bull : InvestSide
  | bear : InvestSide
deriving DecidableEq, Repr

/-- Modelled from the spec: the debate-state `append` protocol of §4.3 — the
`agent_states` module that implements debate mutation is not among the given
source files. `append side text` concatenates `text` onto the history (with a
newline separator between turns), overwrites the current-response slot with
`text`, and increments the turn count by exactly one, regardless of which
side spoke. -/
def InvestDebateState.append (st : InvestDebateState) (_side : InvestSide)
    (text : String) : InvestDebateState :=
  { history := if st.history = "" then text else st.history ++ "\n" ++ text
    current_response := text
    count := st.count + 1 }

/-- Folds a sequence of `append` calls over a debate state. -/
def InvestDebateState.appendAll (st : InvestDebateState)
    (calls : List (InvestSide × String)) : InvestDebateState :=
  calls.foldl (fun s c => s.append c.1 c.2) st

/-- The empty initial investment-debate state, as built by
`create_initial_state`. -/
def initialInvestDebateState : InvestDebateState :=
  { history := "", current_response := "", count := 0 }

end TradingAgents

namespace TradingAgents

theorem appendAll_cons (st : InvestDebateState) (c : InvestSide × String)
    (cs : List (InvestSide × String)) :
    st.appendAll (c :: cs) = (st.append c.1 c.2).appendAll cs := rfl

theorem appendAll_count (calls : List (InvestSide × String)) (st : InvestDebateState) :
    (st.appendAll calls).count = st.count + calls.length := by
  induction calls generalizing st with
  | nil => rfl
  | cons c cs ih =>
    rw [appendAll_cons, ih]
    simp [InvestDebateState.append]
    omega

theorem analysisRequest_split (company_name : String) (trade_date : PyVal)
    (config : Option RunConfig) :
    ∃ extra, analysisRequest company_name trade_date config =
      baseAnalysisRequest company_name trade_date ++ extra := by
  unfold analysisRequest
  cases heq : effectiveHoldingInfo config with
  | none => exact ⟨"", by simp⟩
  | some h =>
    by_cases htr :
        ((h.shares.getD .vnone).truthy && (h.cost_price.getD .vnone).truthy) = true
    · exact ⟨holdingClause (h.shares.getD .vnone) (h.cost_price.getD .vnone),
        by simp [htr]⟩
    · exact ⟨"", by simp [htr]⟩

/-- C1 counterexample: a config whose `holding_info` supplies only `shares`
(no `cost_price`) yields a state whose `holding_info` is the partially filled
structure itself — it is not `None`, contradicting the claim. -/
theorem C1_counterexample :
    ((Propagator.mk 100).create_initial_state "600519" (.vstr "2024-06-01")
        (some ⟨some ⟨some (.vint 100), none⟩⟩)).holding_info =
      some ⟨some (.vint 100), none⟩ ∧
    ((Propagator.mk 100).create_initial_state "600519" (.vstr "2024-06-01")
        (some ⟨some ⟨some (.vint 100), none⟩⟩)).holding_info ≠ none :=
  ⟨rfl, by decide⟩

/-- C1 (amended): whenever the config supplies a truthy (nonempty)
`holding_info` dictionary, the state's `holding_info` is that structure
passed through unchanged — including partially filled ones; only the
seed-message holding clause requires both sub-fields truthy, and when that
fails the seed message is the bare base template. -/
theorem C1_amended_partial_holding_passthrough (p : Propagator)
    (company_name : String) (trade_date : PyVal) (h : HoldingInfo)
    (htr : h.truthy = true)
    (hnot : ((h.shares.getD .vnone).truthy && (h.cost_price.getD .vnone).truthy) = false) :
    (p.create_initial_state company_name trade_date (some ⟨some h⟩)).holding_info =
      some h ∧
    (p.create_initial_state company_name trade_date (some ⟨some h⟩)).seedMessage =
      baseAnalysisRequest company_name trade_date := by
  have heff : effectiveHoldingInfo (some ⟨some h⟩) = some h := by
    simp [effectiveHoldingInfo, htr]
  constructor
  · show effectiveHoldingInfo (some ⟨some h⟩) = some h
    exact heff
  · show analysisRequest company_name trade_date (some ⟨some h⟩) =
      baseAnalysisRequest company_name trade_date
    unfold analysisRequest
    rw [heff]
    simp [hnot]

/-- C1 amended witness: the amended statement at the concrete partial config
`holding_info = ⟨shares 100, absent cost_price⟩`. -/
theorem C1_amended_witness :
    ((Propagator.mk 100).create_initial_state "600519" (.vstr "2024-06-01")
        (some ⟨some ⟨some (.vint 100), none⟩⟩)).holding_info =
      some ⟨some (.vint 100), none⟩ ∧
    ((Propagator.mk 100).create_initial_state "600519" (.vstr "2024-06-01")
        (some ⟨some ⟨some (.vint 100), none⟩⟩)).seedMessage =
      baseAnalysisRequest "600519" (.vstr "2024-06-01") :=
  C1_amended_partial_holding_passthrough (Propagator.mk 100) "600519"
    (.vstr "2024-06-01") ⟨some (.vint 100), none⟩ (by decide) (by decide)

/-- C2 counterexample: `create_initial_state` called with an empty target
performs no validation and returns the ordinary default-initialized state —
no failure surfaces, contradicting the claim that it fails with
`InvalidInput`. -/
theorem C2_counterexample :
    (Propagator.mk 100).create_initial_state "" (.vstr "2024-06-01") none =
      { messages := [.human "请对股票  进行全面分析，交易日期为 2024-06-01。"]
        company_of_interest := ""
        trade_date := "2024-06-01"
        holding_info := none
        investment_debate_state := { history := "", current_response := "", count := 0 }
        risk_debate_state :=
          { history := ""
            current_risky_response := ""
            current_safe_response := ""
            current_neutral_response := ""
            count := 0 }
        market_report := ""
        fundamentals_report := ""
        sentiment_report := ""
        news_report := "" } := by
  decide

/-- C2 (amended): `create_initial_state` performs no input validation at all:
every target (including the empty string) and every `trade_date` value is
accepted, `trade_date` is coerced with `str(...)`, and a normal state is
always returned — the function is total and never fails. -/
theorem C2_amended_no_input_validation (p : Propagator) (company_name : String)
    (trade_date : PyVal) (config : Option RunConfig) :
    (p.create_initial_state company_name trade_date config).company_of_interest =
      company_name ∧
    (p.create_initial_state company_name trade_date config).trade_date =
      trade_date.pyStr ∧
    (p.create_initial_state company_name trade_date config).messages.length = 1 :=
  ⟨rfl, rfl, rfl⟩

/-- C3: for every input, the state returned by `create_initial_state` has all
four report fields equal to the empty string, and both debate sub-states with
empty history, empty current-response slots, and count 0. -/
theorem C3_initial_reports_and_debates_empty (p : Propagator)
    (company_name : String) (trade_date : PyVal) (config : Option RunConfig) :
    (p.create_initial_state company_name trade_date config).market_report = "" ∧
    (p.create_initial_state company_name trade_date config).fundamentals_report = "" ∧
    (p.create_initial_state company_name trade_date config).sentiment_report = "" ∧
    (p.create_initial_state company_name trade_date config).news_report = "" ∧
    (p.create_initial_state company_name trade_date config).investment_debate_state =
      { history := "", current_response := "", count := 0 } ∧
    (p.create_initial_state company_name trade_date config).risk_debate_state =
      { history := ""
        current_risky_response := ""
        current_safe_response := ""
        current_neutral_response := ""
        count := 0 } :=
  ⟨rfl, rfl, rfl, rfl, rfl, rfl⟩

/-- C4: `get_graph_args` returns stream mode "updates" for `true` and
"values" for `false`; the recursion limit is the same across both calls and
equals the value fixed at construction, whose default is 100. -/
theorem C4_graph_args_modes_and_bound (p : Propagator) :
    (p.get_graph_args true).stream_mode = "updates" ∧
    (p.get_graph_args false).stream_mode = "values" ∧
    (p.get_graph_args true).config.recursion_limit =
      (p.get_graph_args false).config.recursion_limit ∧
    (p.get_graph_args true).config.recursion_limit = p.max_recur_limit ∧
    Propagator.mkDefault.max_recur_limit = 100 :=
  ⟨rfl, rfl, rfl, rfl, rfl⟩

/-- C5: when `holding_info` supplies both sub-fields with truthy (non-null,
non-zero) values, the returned state carries the holding structure and its
seed message is the base template followed by the holding-aware clause
stating the share quantity and the cost basis. -/
theorem C5_both_fields_give_holding_clause (p : Propagator)
    (company_name : String) (trade_date : PyVal) (h : HoldingInfo)
    (hs : (h.shares.getD .vnone).truthy = true)
    (hc : (h.cost_price.getD .vnone).truthy = true) :
    (p.create_initial_state company_name trade_date (some ⟨some h⟩)).holding_info =
      some h ∧
    (p.create_initial_state company_name trade_date (some ⟨some h⟩)).seedMessage =
      baseAnalysisRequest company_name trade_date ++
        holdingClause (h.shares.getD .vnone) (h.cost_price.getD .vnone) := by
  have htr : h.truthy = true := by
    cases hsh : h.shares with
    | some v => simp [HoldingInfo.truthy, hsh]
    | none => rw [hsh] at hs; simp [Option.getD, PyVal.truthy] at hs
  have heff : effectiveHoldingInfo (some ⟨some h⟩) = some h := by
    simp [effectiveHoldingInfo, htr]
  constructor
  · show effectiveHoldingInfo (some ⟨some h⟩) = some h
    exact heff
  · show analysisRequest company_name trade_date (some ⟨some h⟩) = _
    unfold analysisRequest
    rw [heff]
    simp [hs, hc]

/-- C5 witness: the clause appears for the concrete holding
`(shares 100, cost_price 86)`. -/
theorem C5_witness :
    ((Propagator.mk 100).create_initial_state "600519" (.vstr "2024-06-01")
        (some ⟨some ⟨some (.vint 100), some (.vint 86)⟩⟩)).holding_info =
      some ⟨some (.vint 100), some (.vint 86)⟩ ∧
    ((Propagator.mk 100).create_initial_state "600519" (.vstr "2024-06-01")
        (some ⟨some ⟨some (.vint 100), some (.vint 86)⟩⟩)).seedMessage =
      baseAnalysisRequest "600519" (.vstr "2024-06-01") ++
        holdingClause (.vint 100) (.vint 86) :=
  C5_both_fields_give_holding_clause (Propagator.mk 100) "600519"
    (.vstr "2024-06-01") ⟨some (.vint 100), some (.vint 86)⟩ (by decide) (by decide)

/-- C6: for every input, the seed message of the returned state contains both
the target string and the (string form of the) trade date verbatim as
substrings. -/
theorem C6_seed_contains_target_and_date (p : Propagator) (company_name : String)
    (trade_date : PyVal) (config : Option RunConfig) :
    (∃ l r, (p.create_initial_state company_name trade_date config).seedMessage =
      l ++ company_name ++ r) ∧
    (∃ l r, (p.create_initial_state company_name trade_date config).seedMessage =
      l ++ trade_date.pyStr ++ r) := by
  obtain ⟨extra, hx⟩ := analysisRequest_split company_name trade_date config
  have hseed : (p.create_initial_state company_name trade_date config).seedMessage =
      analysisRequest company_name trade_date config := rfl
  rw [hseed, hx]
  unfold baseAnalysisRequest
  refine ⟨⟨"请对股票 ",
      " 进行全面分析，交易日期为 " ++ trade_date.pyStr ++ "。" ++ extra, ?_⟩,
    ⟨"请对股票 " ++ company_name ++ " 进行全面分析，交易日期为 ",
      "。" ++ extra, ?_⟩⟩ <;>
  simp [String.append_assoc]

/-- C7 counterexample: constructing a `Propagator` with a zero or negative
recursion bound succeeds and the bound is passed through to the graph
arguments unchanged — construction does not fail, contradicting the claimed
validation. -/
theorem C7_counterexample :
    (Propagator.mk 0).max_recur_limit = 0 ∧
    ((Propagator.mk 0).get_graph_args false).config.recursion_limit = 0 ∧
    (Propagator.mk (-5)).max_recur_limit = -5 ∧
    ((Propagator.mk (-5)).get_graph_args false).config.recursion_limit = -5 :=
  ⟨rfl, rfl, rfl, rfl⟩

/-- C7 (amended): `Propagator` construction performs no validation of the
recursion bound — every integer, including zero and negative values, is
accepted and passed through verbatim as the recursion limit; construction has
no error conditions. -/
theorem C7_amended_no_bound_validation (n : Int) :
    (Propagator.mk n).max_recur_limit = n ∧
    ((Propagator.mk n).get_graph_args false).config.recursion_limit = n ∧
    ((Propagator.mk n).get_graph_args true).config.recursion_limit = n :=
  ⟨rfl, rfl, rfl⟩

/-- C8: for every input, the `trade_date` field of the returned state is the
`str(...)` coercion of the supplied trade-date value; a string input is
stored as itself. -/
theorem C8_trade_date_is_coerced_string (p : Propagator) (company_name : String)
    (trade_date : PyVal) (config : Option RunConfig) :
    (p.create_initial_state company_name trade_date config).trade_date =
      trade_date.pyStr ∧
    ∀ s : String, (PyVal.vstr s).pyStr = s :=
  ⟨rfl, fun _ => rfl⟩

/-- C9: `append` is not idempotent — two identical calls starting from the
empty initial state give turn count 2 and a history containing the text
twice; and after any sequence of N `append` calls (any mix of sides) the turn
count equals exactly N. -/
theorem C9_append_non_idempotent_and_count (side : InvestSide) (text : String)
    (calls : List (InvestSide × String)) :
    ((initialInvestDebateState.append side text).append side text).count = 2 ∧
    (∃ l m r,
      ((initialInvestDebateState.append side text).append side text).history =
        l ++ text ++ m ++ text ++ r) ∧
    (initialInvestDebateState.appendAll calls).count = calls.length := by
  refine ⟨rfl, ?_, ?_⟩
  · by_cases htext : text = ""
    · refine ⟨"", "", "", ?_⟩
      subst htext
      simp [InvestDebateState.append, initialInvestDebateState]
    · refine ⟨"", "\n", "", ?_⟩
      simp [InvestDebateState.append, initialInvestDebateState, htext]
  · simp [appendAll_count, initialInvestDebateState]

/-- C10: for every input, the messages of the returned state are a
single-element list whose sole element is a human message whose content is
exactly the synthesized analysis request. -/
theorem C10_messages_single_seed (p : Propagator) (company_name : String)
    (trade_date : PyVal) (config : Option RunConfig) :
    (p.create_initial_state company_name trade_date config).messages =
      [PyMessage.human (analysisRequest company_name trade_date config)] ∧
    (p.create_initial_state company_name trade_date config).seedMessage =
      analysisRequest company_name trade_date config :=
  ⟨rfl, rfl⟩

end TradingAgents
